import Mathlib

/-!
Shallow embedding of the AppdyLicCalc licensing rules engine.

Source files modelled:
* `src/license_calculator.py`  — infrastructure license engine and the
  session/user-count and SAP core-count normalization helpers;
* `src/thousandeyes_calculator.py` — network-test (ThousandEyes) engine.

Modelling conventions:
* Python `int` is ℤ; Python `float` is ℚ (plus an explicit NaN marker where
  the source tests `value != value`); Python `None`-able values are `Option`.
* Python truthiness on optional ints (`if x:`) is `pyTruthy` (0 and `None`
  are falsy); `a or b` on optional ints is `pyOrInt`.
* Python `int()` on a float truncates toward zero (`pyInt`); Python
  `round()` rounds half to even (`pyRound`).
* Strings are processed over `List Char`; the source's regular expressions
  are embedded as equivalent deterministic left-to-right scanners (the
  patterns involved are backtracking-free, see comments at each scanner).
-/

set_option maxRecDepth 8000

namespace AppdyLicCalc

/-! ### Python-semantics helpers -/

/-- Truthiness of a Python `Optional[int]`: `None` and `0` are falsy. -/
def pyTruthy (o : Option Int) : Bool :=
  match o with
  | some n => n != 0
  | none => false

/-- Python `a or d` for `a : Optional[int]`: yields `d` when `a` is falsy. -/
def pyOrInt (o : Option Int) (d : Int) : Int :=
  match o with
  | some n => if n = 0 then d else n
  | none => d

/-- Python `int()` on a float: truncation toward zero. -/
def pyInt (q : ℚ) : Int :=
  if 0 ≤ q then ⌊q⌋ else -⌊-q⌋

/-- Python 3 `round()` to an integer: round half to even. -/
def pyRound (q : ℚ) : Int :=
  let f := ⌊q⌋
  let r := q - f
  if r < 1 / 2 then f
  else if 1 / 2 < r then f + 1
  else if 2 ∣ f then f else f + 1

/-- ASCII whitespace as matched by the source's regex `\s` class. -/
def isPySpace (c : Char) : Bool :=
  c = ' ' || c = '\t' || c = '\n' || c = '\r' || c = '\x0b' || c = '\x0c'

/-- Value of a nonempty run of decimal digits (`'0'.toNat = 48`). -/
def digitsToNat (l : List Char) : Nat :=
  l.foldl (fun a c => 10 * a + (c.toNat - 48)) 0

/-! ### `license_calculator.py`: constants -/

def RUM_TOKENS_PER_PAGEVIEW : Int := 1

def RUM_TOKENS_PER_ACTIVE_AGENT_MONTH : Int := 160

def RUM_BROWSER_PAGEVIEWS_PER_UNIT_ANNUAL : Int := 10000000

def RUM_MOBILE_ACTIVE_AGENTS_PER_UNIT : Int := 5000

def MICROSERVICES_CORES_EQUIVALENT : Int := 5

/-- `PAGEVIEWS_PER_USER_PER_MONTH`, local constant of `calculate_licenses`. -/
def PAGEVIEWS_PER_USER_PER_MONTH : Int := 20

/-! ### `license_calculator.py`: asset records -/

structure Application where
  name : String
  server : String
  app_type : String
  nodes : Int
  cores_per_node : Int
  is_web_app : Bool
  has_secure_app : Bool
  sessions_users_per_month : Option Int
  notes : String

def Application.total_cores (a : Application) : Int :=
  a.nodes * a.cores_per_node

structure Database where
  name : String
  version : String
  cores_per_node : Int
  nodes : Int
  os : String
  related_app : String

def Database.total_cores (d : Database) : Int :=
  d.nodes * d.cores_per_node

/-! SAP core extraction.

Source regex: `re.findall(r'(\d+)\s*(?:VCPU|vCPU|CPU|core)', s, re.IGNORECASE)`.
The scanner below is equivalent: at a digit it takes the maximal digit run
(the regex's greedy `\d+` cannot succeed with a shorter run, because the
character after a shorter run is a digit, which matches neither `\s` nor the
opening letter of any alternative), skips `\s*`, and tests the case-insensitive
alternatives in the regex's order; on success it captures the full run and
resumes after the token (findall is non-overlapping), on failure it resumes
after the run (every start position strictly inside the run fails for the
same reason the run's start does). -/

/-- Strip one case-insensitive `VCPU` / `CPU` / `core` token, in the
alternation order of the source regex. -/
def stripCoreToken (l : List Char) : Option (List Char) :=
  if (l.take 4).map Char.toLower = ['v', 'c', 'p', 'u'] then some (l.drop 4)
  else if (l.take 3).map Char.toLower = ['c', 'p', 'u'] then some (l.drop 3)
  else if (l.take 4).map Char.toLower = ['c', 'o', 'r', 'e'] then some (l.drop 4)
  else none

/-- Fuel-indexed scanner for the SAP regex; fuel `length + 1` never runs out
because every step consumes at least one character. -/
def vcpuScan : Nat → List Char → List Nat
  | 0, _ => []
  | _ + 1, [] => []
  | fuel + 1, c :: rest =>
    if c.isDigit then
      let run := (c :: rest).takeWhile Char.isDigit
      let after := (c :: rest).dropWhile Char.isDigit
      match stripCoreToken (after.dropWhile isPySpace) with
      | some rest2 => digitsToNat run :: vcpuScan fuel rest2
      | none => vcpuScan fuel after
    else vcpuScan fuel rest

/-- All captures of the SAP core regex over a string, left to right. -/
def vcpuMatches (s : String) : List Nat :=
  vcpuScan (s.data.length + 1) s.data

structure SAPApplication where
  name : String
  server : String
  app_type : String
  nodes : Int
  cores_str : String

/-- `sum(int(n) for n in numbers) * self.nodes if numbers else self.nodes * 4` -/
def SAPApplication.total_cores (s : SAPApplication) : Int :=
  let numbers := vcpuMatches s.cores_str
  if numbers = [] then s.nodes * 4
  else (numbers.map Int.ofNat).sum * s.nodes

structure Microservice where
  name : String
  server : String
  app_type : String
  nodes : Int
  cores_per_node : Int
  is_web_app : Bool
  sessions_users_per_month : Option Int
  containers : Option Int

def Microservice.total_cores (m : Microservice) : Int :=
  m.nodes * m.cores_per_node

structure ServerVisibilityOnly where
  name : String
  nodes : Int
  cores_per_node : Int
  os : String

def ServerVisibilityOnly.total_cores (s : ServerVisibilityOnly) : Int :=
  s.nodes * s.cores_per_node

structure MobileApp where
  name : String
  app_type : String
  platform : String
  ide : String
  active_agents_per_month : Option Int

/-- `if self.active_agents_per_month: return agents * 160; return 0` -/
def MobileApp.rum_tokens_per_month (ma : MobileApp) : Int :=
  if pyTruthy ma.active_agents_per_month then
    ma.active_agents_per_month.getD 0 * RUM_TOKENS_PER_ACTIVE_AGENT_MONTH
  else 0

/-! ### `license_calculator.py`: `parse_sessions_or_users`

Source regex: `re.findall(r'(\d+(?:[\.,]\d+)*(?:\s*k|\s*m)?)', s, re.IGNORECASE)`,
of which only the first match is used.  The scanner is equivalent: the
pattern is backtracking-free for the same reason as the SAP one (a shortened
greedy `\d+` or group run would have to continue at a digit, which matches
none of the follow-up alternatives), and `(?:\s*k|\s*m)?` is `\s*` followed
by a case-insensitive `k` or `m`, or nothing. -/

/-- Scan `(?:[\.,]\d+)*`: groups of digits each preceded by one `.` or `,`.
Fuel `length + 1` never runs out: every step consumes at least two chars. -/
def sepScan : Nat → List Char → List (List Char) × List Char
  | 0, l => ([], l)
  | _ + 1, [] => ([], [])
  | fuel + 1, c :: rest =>
    if (c = '.' || c = ',') &&
        (match rest with
         | c2 :: _ => c2.isDigit
         | [] => false) then
      let ds := rest.takeWhile Char.isDigit
      let r := rest.dropWhile Char.isDigit
      let p := sepScan fuel r
      (ds :: p.1, p.2)
    else ([], c :: rest)

/-- First match of the count regex: integer digit run, the digit groups after
separators, and the optional lowercased `k`/`m` suffix. -/
def findNum : List Char → Option (List Char × List (List Char) × Option Char)
  | [] => none
  | c :: rest =>
    if c.isDigit then
      let g0 := (c :: rest).takeWhile Char.isDigit
      let r1 := (c :: rest).dropWhile Char.isDigit
      let p := sepScan (r1.length + 1) r1
      let r3 := p.2.dropWhile isPySpace
      let suffix : Option Char :=
        match r3 with
        | k :: _ => if k.toLower = 'k' || k.toLower = 'm' then some k.toLower else none
        | [] => none
      some (g0, p.1, suffix)
    else findNum rest

/-- A loosely typed input value: Python `None`, `int`, `float` (NaN as a
separate marker, finite floats as ℚ) or `str`. -/
inductive PyVal
  | pyNone
  | pyNan
  | int (n : Int)
  | float (q : ℚ)
  | str (s : String)

/-- `parse_sessions_or_users`.  After the first regex match the source lowers
it, turns `,` into `.`, removes a `k`/`m` suffix (multiplier 1000 / 1000000),
and applies `int(float(n) * multiplier)`; `float` raises `ValueError` when
more than one separator survived, in which case the source returns `None`. -/
def parse_sessions_or_users : PyVal → Option Int
  | .pyNone => none
  | .pyNan => none
  | .float q =>
    if q = 0 then none
    else if 0 < q then some (pyInt q) else none
  | .int n => if 0 < n then some n else none
  | .str s =>
    match findNum s.data with
    | some (g0, gs, suffix) =>
      let mult : ℚ :=
        match suffix with
        | some c => if c = 'k' then 1000 else 1000000
        | none => 1
      match gs with
      | [] => some (pyInt ((digitsToNat g0 : ℚ) * mult))
      | [g1] =>
        some (pyInt (((digitsToNat g0 : ℚ) + (digitsToNat g1 : ℚ) / (10 : ℚ) ^ g1.length) * mult))
      | _ => none
    | none => none

/-! ### `license_calculator.py`: `LicenseResult` and `calculate_licenses` -/

structure AppDetail where
  name : String
  cores : Int
  secure_app : Bool

structure NameCoresDetail where
  name : String
  cores : Int

structure NodeCoresDetail where
  name : String
  nodes : Int
  cores : Int

structure MobileDetail where
  name : String
  active_agents : Option Int

/-- The `details` dict built at the end of `calculate_licenses`. -/
structure LicenseDetails where
  applications : List AppDetail
  databases : List NameCoresDetail
  sap : List NameCoresDetail
  microservices : List NodeCoresDetail
  server_visibility_only : List NodeCoresDetail
  mobile_apps : List MobileDetail

structure LicenseResult where
  apm_cores : Int
  database_cores : Int
  sap_cores : Int
  microservices_containers : Int
  server_visibility_instances : Int
  server_visibility_only_cores : Int
  secure_app_cores : Int
  rum_browser_pageviews_monthly : Int
  rum_browser_pageviews_annual : Int
  rum_browser_units : ℚ
  rum_browser_tokens_annual : Int
  rum_mobile_active_agents : Int
  rum_mobile_units : ℚ
  rum_mobile_tokens_monthly : Int
  details : LicenseDetails

/-- Derived property `total_apm_cores` (recomputed on read). -/
def LicenseResult.total_apm_cores (r : LicenseResult) : Int :=
  r.apm_cores + r.microservices_containers

/-- Derived property `total_infrastructure_cores` (recomputed on read). -/
def LicenseResult.total_infrastructure_cores (r : LicenseResult) : Int :=
  r.apm_cores + r.database_cores + r.sap_cores + r.microservices_containers +
    r.server_visibility_only_cores + r.secure_app_cores

/-- The RUM-browser accumulation loop over applications:
`if a.is_web_app and a.sessions_users_per_month: rum += sessions * 20`. -/
def rumLoopApps (acc : Int) (l : List Application) : Int :=
  l.foldl
    (fun r a =>
      if a.is_web_app && pyTruthy a.sessions_users_per_month then
        r + a.sessions_users_per_month.getD 0 * PAGEVIEWS_PER_USER_PER_MONTH
      else r)
    acc

/-- The RUM-browser accumulation loop over microservices. -/
def rumLoopMicros (acc : Int) (l : List Microservice) : Int :=
  l.foldl
    (fun r m =>
      if m.is_web_app && pyTruthy m.sessions_users_per_month then
        r + m.sessions_users_per_month.getD 0 * PAGEVIEWS_PER_USER_PER_MONTH
      else r)
    acc

/-- `calculate_licenses`.  Each of the six list arguments defaults to the
empty list via `xs or []` (on lists, `None or []` and `[] or []` are both
`[]`, so this is `Option.getD`). -/
def calculate_licenses
    (applications : Option (List Application))
    (databases : Option (List Database))
    (sap_apps : Option (List SAPApplication))
    (microservices : Option (List Microservice))
    (server_visibility_only : Option (List ServerVisibilityOnly))
    (mobile_apps : Option (List MobileApp)) : LicenseResult :=
  let apps := applications.getD []
  let dbs := databases.getD []
  let saps := sap_apps.getD []
  let micros := microservices.getD []
  let svonly := server_visibility_only.getD []
  let mobiles := mobile_apps.getD []
  let rum_pageviews := rumLoopMicros (rumLoopApps 0 apps) micros
  let tokens_annual := rum_pageviews * 12 * RUM_TOKENS_PER_PAGEVIEW
  let active_agents := (mobiles.map (fun ma => pyOrInt ma.active_agents_per_month 0)).sum
  { apm_cores := (apps.map Application.total_cores).sum
    database_cores := (dbs.map Database.total_cores).sum
    sap_cores := (saps.map SAPApplication.total_cores).sum
    microservices_containers := (micros.map Microservice.total_cores).sum
    server_visibility_instances :=
      (apps.map Application.nodes).sum + (dbs.map Database.nodes).sum +
        (saps.map SAPApplication.nodes).sum + (micros.map Microservice.nodes).sum
    server_visibility_only_cores := (svonly.map ServerVisibilityOnly.total_cores).sum
    secure_app_cores :=
      ((apps.filter (fun a => a.has_secure_app)).map Application.total_cores).sum
    rum_browser_pageviews_monthly := rum_pageviews
    rum_browser_pageviews_annual := rum_pageviews * 12
    rum_browser_tokens_annual := tokens_annual
    rum_browser_units :=
      if 0 < RUM_BROWSER_PAGEVIEWS_PER_UNIT_ANNUAL then
        (tokens_annual : ℚ) / (RUM_BROWSER_PAGEVIEWS_PER_UNIT_ANNUAL : ℚ)
      else 0
    rum_mobile_active_agents := active_agents
    rum_mobile_tokens_monthly := (mobiles.map MobileApp.rum_tokens_per_month).sum
    rum_mobile_units :=
      if 0 < RUM_MOBILE_ACTIVE_AGENTS_PER_UNIT then
        (active_agents : ℚ) / (RUM_MOBILE_ACTIVE_AGENTS_PER_UNIT : ℚ)
      else 0
    details :=
      { applications := apps.map (fun a => AppDetail.mk a.name a.total_cores a.has_secure_app)
        databases := dbs.map (fun d => NameCoresDetail.mk d.name d.total_cores)
        sap := saps.map (fun s => NameCoresDetail.mk s.name s.total_cores)
        microservices := micros.map (fun m => NodeCoresDetail.mk m.name m.nodes m.total_cores)
        server_visibility_only :=
          svonly.map (fun s => NodeCoresDetail.mk s.name s.nodes s.total_cores)
        mobile_apps := mobiles.map (fun ma => MobileDetail.mk ma.name ma.active_agents_per_month) } }

/-! ### `thousandeyes_calculator.py`: catalog, aliases, tests -/

/-- The 13 keys of `TEST_TYPE_SCOPES`. -/
inductive TEKind
  | red
  | agent_to_agent
  | agent_to_server
  | dns_server
  | dns_trace
  | dnssec
  | bgp
  | http_server
  | ftp_server
  | page_load
  | transaction
  | sip_server
  | rtp_stream
deriving DecidableEq

/-- One entry of `TEST_TYPE_SCOPES`.  Keys absent from a dict entry carry the
value `cfg.get` would default them to where they are read (`no_agents`,
`uses_timeout`, `per_server` default falsy; `milli_cloud_per_sec` defaults 1
and `milli_enterprise_per_sec` defaults 1/2); `milli_cloud`/`milli_enterprise`
are read with `cfg[...]`, which is only reached for kinds that define them, so
the placeholder 0 for the six timeout-scaled kinds is never read. -/
structure ScopeCfg where
  uses_timeout : Bool
  milli_cloud : ℚ
  milli_enterprise : ℚ
  milli_cloud_per_sec : ℚ
  milli_enterprise_per_sec : ℚ
  per_server : Bool
  no_agents : Bool

def TEST_TYPE_SCOPES : TEKind → ScopeCfg
  | .red => ⟨false, 5, 5 / 2, 1, 1 / 2, false, false⟩
  | .agent_to_agent => ⟨false, 5, 5 / 2, 1, 1 / 2, false, false⟩
  | .agent_to_server => ⟨false, 5, 5 / 2, 1, 1 / 2, false, false⟩
  | .dns_server => ⟨false, 5, 5 / 2, 1, 1 / 2, true, false⟩
  | .dns_trace => ⟨false, 5, 5 / 2, 1, 1 / 2, false, false⟩
  | .dnssec => ⟨false, 5, 5 / 2, 1, 1 / 2, false, false⟩
  | .bgp => ⟨false, 8, 8, 1, 1 / 2, false, true⟩
  | .http_server => ⟨true, 0, 0, 1, 1 / 2, false, false⟩
  | .ftp_server => ⟨true, 0, 0, 1, 1 / 2, false, false⟩
  | .page_load => ⟨true, 0, 0, 1, 1 / 2, false, false⟩
  | .transaction => ⟨true, 0, 0, 1, 1 / 2, false, false⟩
  | .sip_server => ⟨true, 0, 0, 1, 1 / 2, false, false⟩
  | .rtp_stream => ⟨true, 0, 0, 1, 1 / 2, false, false⟩

/-- `TEST_TYPE_ALIASES.get`: the source dict, one test per key. -/
def TEST_TYPE_ALIASES (k : List Char) : Option TEKind :=
  if k = "red".data then some .red
  else if k = "network".data then some .red
  else if k = "agent-to-agent".data then some .agent_to_agent
  else if k = "agent_to_agent".data then some .agent_to_agent
  else if k = "agent-to-server".data then some .agent_to_server
  else if k = "agent_to_server".data then some .agent_to_server
  else if k = "dns server".data then some .dns_server
  else if k = "dns_server".data then some .dns_server
  else if k = "dns trace".data then some .dns_trace
  else if k = "dns_trace".data then some .dns_trace
  else if k = "dnssec".data then some .dnssec
  else if k = "bgp".data then some .bgp
  else if k = "http".data then some .http_server
  else if k = "http server".data then some .http_server
  else if k = "http_server".data then some .http_server
  else if k = "ftp".data then some .ftp_server
  else if k = "ftp server".data then some .ftp_server
  else if k = "page load".data then some .page_load
  else if k = "page_load".data then some .page_load
  else if k = "transaction".data then some .transaction
  else if k = "sip".data then some .sip_server
  else if k = "sip server".data then some .sip_server
  else if k = "rtp".data then some .rtp_stream
  else if k = "rtp stream".data then some .rtp_stream
  else if k = "rtp_stream".data then some .rtp_stream
  else if k = "web".data then some .page_load
  else none

inductive AgentKind
  | cloud
  | enterprise
deriving DecidableEq

/-- `AGENT_TYPE_ALIASES.get`. -/
def AGENT_TYPE_ALIASES (k : List Char) : Option AgentKind :=
  if k = "cloud".data then some .cloud
  else if k = "enterprise".data then some .enterprise
  else if k = "clou".data then some .cloud
  else if k = "enterpris".data then some .enterprise
  else none

def MIN_INTERVAL : Int := 1

def MAX_INTERVAL : Int := 60

def MIN_TIMEOUT : Int := 5

def MAX_TIMEOUT : Int := 180

def DAYS_PROJECTION : Int := 31

/-- Python `str.lower()` on the ASCII strings involved. -/
def lcLower (l : List Char) : List Char :=
  l.map Char.toLower

/-- Python `str.strip()`: drop whitespace at both ends. -/
def lcStrip (l : List Char) : List Char :=
  ((l.dropWhile isPySpace).reverse.dropWhile isPySpace).reverse

/-- `.replace(" ", "_").replace("-", "_")` (single-character replaces). -/
def lcUnderscore (l : List Char) : List Char :=
  l.map (fun c => if c = ' ' || c = '-' then '_' else c)

structure ThousandEyesTest where
  test_type : String
  interval_minutes : Int
  num_agents : Int
  agent_type : String
  timeout_seconds : Option Int
  dns_servers : Option Int
  rtp_duration_seconds : Option Int

/-- `self.test_type.lower().strip().replace(" ", "_").replace("-", "_")`,
then `TEST_TYPE_ALIASES.get(key, "red")`. -/
def ThousandEyesTest.resolve_test_type (t : ThousandEyesTest) : TEKind :=
  (TEST_TYPE_ALIASES (lcUnderscore (lcStrip (lcLower t.test_type.data)))).getD .red

/-- `AGENT_TYPE_ALIASES.get(self.agent_type.lower().strip(), "enterprise")`. -/
def ThousandEyesTest.resolve_agent_type (t : ThousandEyesTest) : AgentKind :=
  (AGENT_TYPE_ALIASES (lcStrip (lcLower t.agent_type.data))).getD .enterprise

/-- `get_milli_units`: milli-unit cost per 1000 rounds for a test. -/
def get_milli_units (test : ThousandEyesTest) : ℚ :=
  let key := test.resolve_test_type
  let agent := test.resolve_agent_type
  let cfg := TEST_TYPE_SCOPES key
  if cfg.no_agents then cfg.milli_cloud
  else if cfg.uses_timeout then
    let timeout :=
      max MIN_TIMEOUT (min MAX_TIMEOUT
        (pyOrInt test.timeout_seconds (pyOrInt test.rtp_duration_seconds MIN_TIMEOUT)))
    let m_cloud := cfg.milli_cloud_per_sec * (timeout : ℚ)
    let m_ent := cfg.milli_enterprise_per_sec * (timeout : ℚ)
    if agent = .enterprise then m_ent else m_cloud
  else if cfg.per_server then
    let servers := max 1 (pyOrInt test.dns_servers 1)
    (if agent = .enterprise then cfg.milli_enterprise else cfg.milli_cloud) * (servers : ℚ)
  else
    if agent = .enterprise then cfg.milli_enterprise else cfg.milli_cloud

/-- `calculate_units_per_test`.  Note that the no-agents check looks up
`TEST_TYPE_ALIASES.get(test.test_type.lower(), "red")` — `lower()` only,
without the `strip`/`replace` normalization that `resolve_test_type`
applies for the milli-unit rate. -/
def calculate_units_per_test (test : ThousandEyesTest) : Int :=
  let milli := get_milli_units test
  let interval := max MIN_INTERVAL (min MAX_INTERVAL test.interval_minutes)
  let rounds_per_hour : ℚ := 60 / (interval : ℚ)
  let rounds_31_days := rounds_per_hour * 24 * (DAYS_PROJECTION : ℚ)
  let agents : Int :=
    if (TEST_TYPE_SCOPES ((TEST_TYPE_ALIASES (lcLower test.test_type.data)).getD .red)).no_agents
    then 1
    else max 1 test.num_agents
  let milli_total := milli * rounds_31_days * (agents : ℚ)
  let units := pyRound (milli_total / 1000)
  max 1 units

/-! ### Claim-side (specification) definitions -/

/-- C9's stated RUM-browser sum over applications: sessions × 20 over the
web-flagged applications with a known (non-`None`) session count. -/
def rumSpecApps (l : List Application) : Int :=
  ((l.filter (fun a => a.is_web_app && a.sessions_users_per_month.isSome)).map
    (fun a => a.sessions_users_per_month.getD 0 * 20)).sum

/-- C9's stated RUM-browser sum over microservices. -/
def rumSpecMicros (l : List Microservice) : Int :=
  ((l.filter (fun m => m.is_web_app && m.sessions_users_per_month.isSome)).map
    (fun m => m.sessions_users_per_month.getD 0 * 20)).sum

/-! ### Helper lemmas -/

lemma pyRound_of_lt_half (q : ℚ) (n : ℤ) (h0 : (n : ℚ) ≤ q) (h1 : q < (n : ℚ) + 1 / 2) :
    pyRound q = n := by
  have hf : ⌊q⌋ = n := Int.floor_eq_iff.mpr ⟨h0, by linarith⟩
  simp only [pyRound, hf]
  rw [if_pos (by linarith : q - (n : ℚ) < 1 / 2)]

lemma pyRound_of_gt_half (q : ℚ) (n : ℤ) (h0 : (n : ℚ) + 1 / 2 < q) (h1 : q < (n : ℚ) + 1) :
    pyRound q = n + 1 := by
  have hf : ⌊q⌋ = n := Int.floor_eq_iff.mpr ⟨by linarith, h1⟩
  simp only [pyRound, hf]
  have h2 : ¬(q - (n : ℚ) < 1 / 2) := by push_neg; linarith
  have h3 : (1 : ℚ) / 2 < q - (n : ℚ) := by linarith
  rw [if_neg h2, if_pos h3]

lemma rumLoopApps_eq (l : List Application) :
    ∀ acc : Int, rumLoopApps acc l = acc + rumSpecApps l := by
  induction l with
  | nil => intro acc; simp [rumLoopApps, rumSpecApps]
  | cons a t ih =>
    intro acc
    have hstep : rumLoopApps acc (a :: t) =
        rumLoopApps
          (if a.is_web_app && pyTruthy a.sessions_users_per_month then
            acc + a.sessions_users_per_month.getD 0 * PAGEVIEWS_PER_USER_PER_MONTH
          else acc) t := rfl
    rw [hstep, ih]
    rcases hs : a.sessions_users_per_month with _ | n
    · simp [rumSpecApps, List.filter_cons, pyTruthy, hs]
    · by_cases hw : a.is_web_app
      · by_cases hn : n = 0
        · subst hn
          simp [rumSpecApps, List.filter_cons, pyTruthy, hs, hw]
        · simp only [rumSpecApps, List.filter_cons, pyTruthy, hs, hw, Option.isSome_some,
            Bool.and_true, Bool.true_and, bne_iff_ne, ne_eq, hn, not_false_eq_true, if_true,
            List.map_cons, List.sum_cons, Option.getD_some, PAGEVIEWS_PER_USER_PER_MONTH]
          ring
      · simp [rumSpecApps, List.filter_cons, pyTruthy, hs, hw]

lemma rumLoopMicros_eq (l : List Microservice) :
    ∀ acc : Int, rumLoopMicros acc l = acc + rumSpecMicros l := by
  induction l with
  | nil => intro acc; simp [rumLoopMicros, rumSpecMicros]
  | cons a t ih =>
    intro acc
    have hstep : rumLoopMicros acc (a :: t) =
        rumLoopMicros
          (if a.is_web_app && pyTruthy a.sessions_users_per_month then
            acc + a.sessions_users_per_month.getD 0 * PAGEVIEWS_PER_USER_PER_MONTH
          else acc) t := rfl
    rw [hstep, ih]
    rcases hs : a.sessions_users_per_month with _ | n
    · simp [rumSpecMicros, List.filter_cons, pyTruthy, hs]
    · by_cases hw : a.is_web_app
      · by_cases hn : n = 0
        · subst hn
          simp [rumSpecMicros, List.filter_cons, pyTruthy, hs, hw]
        · simp only [rumSpecMicros, List.filter_cons, pyTruthy, hs, hw, Option.isSome_some,
            Bool.and_true, Bool.true_and, bne_iff_ne, ne_eq, hn, not_false_eq_true, if_true,
            List.map_cons, List.sum_cons, Option.getD_some, PAGEVIEWS_PER_USER_PER_MONTH]
          ring
      · simp [rumSpecMicros, List.filter_cons, pyTruthy, hs, hw]

/-! ### Claim theorems -/

/-- C1: the per-test unit formula.  Evidence of a code bug at the failing
input `test_type = " bgp"` (leading space), interval 60, 2 cloud agents: the
test resolves to the no-agent BGP kind (so the claim's
`effective_agent_count` is 1 and the claimed unit count is
`max 1 (round(8 × 744 × 1 / 1000)) = 6`), yet `calculate_units_per_test`
returns 12, because its no-agents check looks the raw `test_type.lower()` up
in the alias table without the strip/underscore normalization and therefore
falls back to the "red" kind and multiplies by `max(1, num_agents) = 2`. -/
theorem te_c1_agent_check_divergence :
    (⟨" bgp", 60, 2, "cloud", none, none, none⟩ : ThousandEyesTest).resolve_test_type =
      TEKind.bgp ∧
    (TEST_TYPE_SCOPES TEKind.bgp).no_agents = true ∧
    get_milli_units ⟨" bgp", 60, 2, "cloud", none, none, none⟩ = 8 ∧
    calculate_units_per_test ⟨" bgp", 60, 2, "cloud", none, none, none⟩ = 12 ∧
    max 1 (pyRound (8 * (60 / (60 : ℚ) * 24 * 31) * 1 / 1000)) = 6 := by
  refine ⟨by decide, by decide, rfl, ?_, ?_⟩
  · have hm : get_milli_units ⟨" bgp", 60, 2, "cloud", none, none, none⟩ = 8 := rfl
    have hna : (TEST_TYPE_SCOPES
        ((TEST_TYPE_ALIASES (lcLower (" bgp".data))).getD TEKind.red)).no_agents = false := by
      decide
    simp only [calculate_units_per_test, hm, hna, if_false]
    norm_num [MIN_INTERVAL, MAX_INTERVAL, DAYS_PROJECTION]
    rw [pyRound_of_gt_half (1488 / 125 : ℚ) 11 (by norm_num) (by norm_num)]
    decide
  · rw [show (8 * (60 / (60 : ℚ) * 24 * 31) * 1 / 1000) = 744 / 125 from by norm_num]
    rw [pyRound_of_gt_half (744 / 125 : ℚ) 5 (by norm_num) (by norm_num)]
    decide

/-- C2: the end-to-end scenario of one application (4 × 8 cores, web, 2000
sessions/month), one database (12 cores × 2 nodes) and one SAP app
("ASCS 2 VCPU, Primario APP Server 16 VCPU", 1 node) yields apm_cores 32,
database_cores 24, sap_cores 18, server_visibility_instances 7,
rum_browser_pageviews_monthly 40000, rum_browser_units 0.048 and
total_infrastructure_cores 74. -/
theorem lc_c2_end_to_end_scenario :
    (calculate_licenses (some [⟨"Ejemplo 1", "Jboss 7", "Java", 4, 8, true, false, some 2000, ""⟩])
      (some [⟨"Oracle", "11G", 12, 2, "RHEL 7", "Ejemplo-1"⟩])
      (some [⟨"Ejemplo", "", "", 1, "ASCS 2 VCPU, Primario APP Server 16 VCPU"⟩])
      none none none).apm_cores = 32 ∧
    (calculate_licenses (some [⟨"Ejemplo 1", "Jboss 7", "Java", 4, 8, true, false, some 2000, ""⟩])
      (some [⟨"Oracle", "11G", 12, 2, "RHEL 7", "Ejemplo-1"⟩])
      (some [⟨"Ejemplo", "", "", 1, "ASCS 2 VCPU, Primario APP Server 16 VCPU"⟩])
      none none none).database_cores = 24 ∧
    (calculate_licenses (some [⟨"Ejemplo 1", "Jboss 7", "Java", 4, 8, true, false, some 2000, ""⟩])
      (some [⟨"Oracle", "11G", 12, 2, "RHEL 7", "Ejemplo-1"⟩])
      (some [⟨"Ejemplo", "", "", 1, "ASCS 2 VCPU, Primario APP Server 16 VCPU"⟩])
      none none none).sap_cores = 18 ∧
    (calculate_licenses (some [⟨"Ejemplo 1", "Jboss 7", "Java", 4, 8, true, false, some 2000, ""⟩])
      (some [⟨"Oracle", "11G", 12, 2, "RHEL 7", "Ejemplo-1"⟩])
      (some [⟨"Ejemplo", "", "", 1, "ASCS 2 VCPU, Primario APP Server 16 VCPU"⟩])
      none none none).server_visibility_instances = 7 ∧
    (calculate_licenses (some [⟨"Ejemplo 1", "Jboss 7", "Java", 4, 8, true, false, some 2000, ""⟩])
      (some [⟨"Oracle", "11G", 12, 2, "RHEL 7", "Ejemplo-1"⟩])
      (some [⟨"Ejemplo", "", "", 1, "ASCS 2 VCPU, Primario APP Server 16 VCPU"⟩])
      none none none).rum_browser_pageviews_monthly = 40000 ∧
    (calculate_licenses (some [⟨"Ejemplo 1", "Jboss 7", "Java", 4, 8, true, false, some 2000, ""⟩])
      (some [⟨"Oracle", "11G", 12, 2, "RHEL 7", "Ejemplo-1"⟩])
      (some [⟨"Ejemplo", "", "", 1, "ASCS 2 VCPU, Primario APP Server 16 VCPU"⟩])
      none none none).rum_browser_units = 48 / 1000 ∧
    (calculate_licenses (some [⟨"Ejemplo 1", "Jboss 7", "Java", 4, 8, true, false, some 2000, ""⟩])
      (some [⟨"Oracle", "11G", 12, 2, "RHEL 7", "Ejemplo-1"⟩])
      (some [⟨"Ejemplo", "", "", 1, "ASCS 2 VCPU, Primario APP Server 16 VCPU"⟩])
      none none none).total_infrastructure_cores = 74 := by
  refine ⟨by decide, by decide, by decide, by decide, by decide, ?_, by decide⟩
  have h : (calculate_licenses
      (some [⟨"Ejemplo 1", "Jboss 7", "Java", 4, 8, true, false, some 2000, ""⟩])
      (some [⟨"Oracle", "11G", 12, 2, "RHEL 7", "Ejemplo-1"⟩])
      (some [⟨"Ejemplo", "", "", 1, "ASCS 2 VCPU, Primario APP Server 16 VCPU"⟩])
      none none none).rum_browser_units = ((480000 : Int) : ℚ) / ((10000000 : Int) : ℚ) := rfl
  rw [h]
  norm_num

/-- C3, counterexample: the claim states that the DNS Server kind's base
rates are equal for the two agent types, but in the source they are
`milli_cloud = 5` and `milli_enterprise = 2.5`, so `get_milli_units` on a
one-server DNS Server test yields 5/2 for enterprise and 5 for cloud. -/
theorem te_c3_dns_rates_counterexample :
    get_milli_units ⟨"dns server", 5, 1, "enterprise", none, none, none⟩ = 5 / 2 ∧
    get_milli_units ⟨"dns server", 5, 1, "cloud", none, none, none⟩ = 5 ∧
    ¬((5 : ℚ) / 2 = 5) := by
  refine ⟨?_, ?_, by norm_num⟩
  · have hk : (⟨"dns server", 5, 1, "enterprise", none, none, none⟩ :
        ThousandEyesTest).resolve_test_type = TEKind.dns_server := by decide
    have ha : (⟨"dns server", 5, 1, "enterprise", none, none, none⟩ :
        ThousandEyesTest).resolve_agent_type = AgentKind.enterprise := by decide
    simp only [get_milli_units, hk, ha, TEST_TYPE_SCOPES]
    norm_num [pyOrInt]
  · have hk : (⟨"dns server", 5, 1, "cloud", none, none, none⟩ :
        ThousandEyesTest).resolve_test_type = TEKind.dns_server := by decide
    have ha : (⟨"dns server", 5, 1, "cloud", none, none, none⟩ :
        ThousandEyesTest).resolve_agent_type = AgentKind.cloud := by decide
    simp only [get_milli_units, hk, ha, TEST_TYPE_SCOPES, reduceCtorEq, if_false]
    norm_num [pyOrInt]

/-- C3, amended: for every test, the milli-unit rate `get_milli_units`
computes for agent type "enterprise" is exactly half the rate it computes
for agent type "cloud", except when the test resolves to the BGP kind, whose
rate (8) is the same for both agent types.  (The DNS Server kind follows the
half rule: cloud 5 and enterprise 2.5 per server.) -/
theorem te_c3_enterprise_half_except_bgp (t : ThousandEyesTest) :
    if t.resolve_test_type = TEKind.bgp then
      get_milli_units { t with agent_type := "enterprise" } =
        get_milli_units { t with agent_type := "cloud" }
    else
      get_milli_units { t with agent_type := "enterprise" } =
        get_milli_units { t with agent_type := "cloud" } / 2 := by
  have hkE : ({ t with agent_type := "enterprise" } : ThousandEyesTest).resolve_test_type =
      t.resolve_test_type := rfl
  have hkC : ({ t with agent_type := "cloud" } : ThousandEyesTest).resolve_test_type =
      t.resolve_test_type := rfl
  have haE : ({ t with agent_type := "enterprise" } : ThousandEyesTest).resolve_agent_type =
      AgentKind.enterprise := rfl
  have haC : ({ t with agent_type := "cloud" } : ThousandEyesTest).resolve_agent_type =
      AgentKind.cloud := rfl
  cases hk : t.resolve_test_type <;>
    simp only [hk, get_milli_units, hkE, hkC, haE, haC, TEST_TYPE_SCOPES, if_true, if_false,
      reduceIte, reduceCtorEq] <;>
    ring

/-- C4: the claim that a test resolving to the BGP kind yields the same unit
count for every agent_type/num_agents combination.  Evidence of a code bug
at the failing input `test_type = "bgp "` (trailing space), interval 60:
both variants resolve to the BGP kind, yet 2 cloud agents give 12 units
while 1 enterprise agent gives 6, because the no-agents check in
`calculate_units_per_test` looks up `test_type.lower()` unstripped, misses
the alias table and multiplies by `max(1, num_agents)`. -/
theorem te_c4_bgp_agent_invariance_divergence :
    (⟨"bgp ", 60, 2, "cloud", none, none, none⟩ : ThousandEyesTest).resolve_test_type =
      TEKind.bgp ∧
    (⟨"bgp ", 60, 1, "enterprise", none, none, none⟩ : ThousandEyesTest).resolve_test_type =
      TEKind.bgp ∧
    calculate_units_per_test ⟨"bgp ", 60, 2, "cloud", none, none, none⟩ = 12 ∧
    calculate_units_per_test ⟨"bgp ", 60, 1, "enterprise", none, none, none⟩ = 6 := by
  refine ⟨by decide, by decide, ?_, ?_⟩
  · have hm : get_milli_units ⟨"bgp ", 60, 2, "cloud", none, none, none⟩ = 8 := rfl
    have hna : (TEST_TYPE_SCOPES
        ((TEST_TYPE_ALIASES (lcLower ("bgp ".data))).getD TEKind.red)).no_agents = false := by
      decide
    simp only [calculate_units_per_test, hm, hna, if_false]
    norm_num [MIN_INTERVAL, MAX_INTERVAL, DAYS_PROJECTION]
    rw [pyRound_of_gt_half (1488 / 125 : ℚ) 11 (by norm_num) (by norm_num)]
    decide
  · have hm : get_milli_units ⟨"bgp ", 60, 1, "enterprise", none, none, none⟩ = 8 := rfl
    have hna : (TEST_TYPE_SCOPES
        ((TEST_TYPE_ALIASES (lcLower ("bgp ".data))).getD TEKind.red)).no_agents = false := by
      decide
    simp only [calculate_units_per_test, hm, hna, if_false]
    norm_num [MIN_INTERVAL, MAX_INTERVAL, DAYS_PROJECTION]
    rw [pyRound_of_gt_half (744 / 125 : ℚ) 5 (by norm_num) (by norm_num)]
    decide

/-- C5: `parse_sessions_or_users` returns `none` for null, NaN, zero and
negative numeric input and for empty/unmatched strings; positive numeric
input passes through truncated to an integer (for positives, truncation is
the floor); string input yields the first digit run with optional decimal
separator and optional case-insensitive k/m suffix, so that
"2000 usuarios" ↦ 2000, "1.5k" ↦ 1500, "1.5m" ↦ 1500000, "" ↦ none.
(Totality holds by construction: the embedding is a total function.) -/
theorem lc_c5_parse_sessions_spec :
    parse_sessions_or_users PyVal.pyNone = none ∧
    parse_sessions_or_users PyVal.pyNan = none ∧
    parse_sessions_or_users (PyVal.int 0) = none ∧
    parse_sessions_or_users (PyVal.float 0) = none ∧
    (∀ n : Int, 0 < n → parse_sessions_or_users (PyVal.int n) = some n) ∧
    (∀ n : Int, n ≤ 0 → parse_sessions_or_users (PyVal.int n) = none) ∧
    (∀ q : ℚ, 0 < q → parse_sessions_or_users (PyVal.float q) = some ⌊q⌋) ∧
    (∀ q : ℚ, q ≤ 0 → parse_sessions_or_users (PyVal.float q) = none) ∧
    parse_sessions_or_users (PyVal.str "2000 usuarios") = some 2000 ∧
    parse_sessions_or_users (PyVal.str "1.5k") = some 1500 ∧
    parse_sessions_or_users (PyVal.str "1.5m") = some 1500000 ∧
    parse_sessions_or_users (PyVal.str "") = none := by
  refine ⟨rfl, rfl, rfl, by norm_num [parse_sessions_or_users], ?_, ?_, ?_, ?_, ?_, ?_, ?_, ?_⟩
  · intro n hn
    simp [parse_sessions_or_users, hn]
  · intro n hn
    simp [parse_sessions_or_users, not_lt.mpr hn]
  · intro q hq
    rw [parse_sessions_or_users, if_neg (ne_of_gt hq), if_pos hq, pyInt, if_pos (le_of_lt hq)]
  · intro q hq
    rcases eq_or_lt_of_le hq with h | h
    · rw [parse_sessions_or_users, if_pos h]
    · rw [parse_sessions_or_users, if_neg (ne_of_lt h), if_neg (not_lt.mpr hq)]
  · have h : findNum "2000 usuarios".data = some (['2', '0', '0', '0'], [], none) := by decide
    have h2 : digitsToNat ['2', '0', '0', '0'] = 2000 := by decide
    simp only [parse_sessions_or_users, h, h2]
    norm_num [pyInt]
  · have h : findNum "1.5k".data = some (['1'], [['5']], some 'k') := by decide
    have h1 : digitsToNat ['1'] = 1 := by decide
    have h5 : digitsToNat ['5'] = 5 := by decide
    simp only [parse_sessions_or_users, h, h1, h5]
    norm_num [pyInt]
  · have h : findNum "1.5m".data = some (['1'], [['5']], some 'm') := by decide
    have h1 : digitsToNat ['1'] = 1 := by decide
    have h5 : digitsToNat ['5'] = 5 := by decide
    simp only [parse_sessions_or_users, h, h1, h5]
    rw [if_neg (by decide : ¬('m' = 'k'))]
    norm_num [pyInt]
  · simp only [parse_sessions_or_users, show findNum "".data = none from by decide]

/-- C5 witness: the positive-integer clause applied at 7. -/
theorem lc_c5_parse_sessions_witness :
    parse_sessions_or_users (PyVal.int 7) = some 7 :=
  lc_c5_parse_sessions_spec.2.2.2.2.1 7 (by norm_num)

/-- C6: for every SAPApplication, `total_cores` is nodes times the sum of
the integers followed (after optional whitespace) by a case-insensitive
VCPU/CPU/core token, and nodes × 4 when there is no such token; in
particular "ASCS 2 VCPU, Primario APP Server 16 VCPU" with 1 node gives 18
and "no info" with 2 nodes gives 8. -/
theorem lc_c6_sap_total_cores :
    (∀ (name server app_type : String) (nodes : Int) (cs : String),
      SAPApplication.total_cores ⟨name, server, app_type, nodes, cs⟩ =
        if vcpuMatches cs = [] then nodes * 4
        else nodes * ((vcpuMatches cs).map Int.ofNat).sum) ∧
    SAPApplication.total_cores
      ⟨"Ejemplo", "", "", 1, "ASCS 2 VCPU, Primario APP Server 16 VCPU"⟩ = 18 ∧
    SAPApplication.total_cores ⟨"X", "", "", 2, "no info"⟩ = 8 := by
  refine ⟨?_, by decide, by decide⟩
  intro name server app_type nodes cs
  simp only [SAPApplication.total_cores]
  split
  · rfl
  · exact mul_comm _ _

/-- C7: `total_infrastructure_cores` is the derived sum of the six stored
core fields, recomputed from the record on every read. -/
theorem lc_c7_total_infrastructure_derived (r : LicenseResult) :
    r.total_infrastructure_cores =
      r.apm_cores + r.database_cores + r.sap_cores + r.microservices_containers +
        r.server_visibility_only_cores + r.secure_app_cores := rfl

/-- C8: `server_visibility_instances` is the sum of the `nodes` fields over
applications, databases, SAP apps and microservices only; the
server-visibility-only argument does not influence it. -/
theorem lc_c8_server_visibility_instances
    (oa : Option (List Application)) (od : Option (List Database))
    (osap : Option (List SAPApplication)) (om : Option (List Microservice))
    (ov ov' : Option (List ServerVisibilityOnly)) (ob : Option (List MobileApp)) :
    (calculate_licenses oa od osap om ov ob).server_visibility_instances =
      ((oa.getD []).map Application.nodes).sum + ((od.getD []).map Database.nodes).sum +
        ((osap.getD []).map SAPApplication.nodes).sum +
        ((om.getD []).map Microservice.nodes).sum ∧
    (calculate_licenses oa od osap om ov ob).server_visibility_instances =
      (calculate_licenses oa od osap om ov' ob).server_visibility_instances :=
  ⟨rfl, rfl⟩

/-- C9: `rum_browser_pageviews_monthly` is the sum of sessions × 20 over the
web-flagged applications and microservices with a known session count;
annual pageviews are monthly × 12; annual tokens are annual pageviews × 1;
units are annual tokens ÷ 10,000,000 unrounded; and a non-web application
contributes zero pageviews regardless of its session value. -/
theorem lc_c9_rum_browser :
    (∀ (oa : Option (List Application)) (od : Option (List Database))
        (osap : Option (List SAPApplication)) (om : Option (List Microservice))
        (ov : Option (List ServerVisibilityOnly)) (ob : Option (List MobileApp)),
      (calculate_licenses oa od osap om ov ob).rum_browser_pageviews_monthly =
        rumSpecApps (oa.getD []) + rumSpecMicros (om.getD []) ∧
      (calculate_licenses oa od osap om ov ob).rum_browser_pageviews_annual =
        (calculate_licenses oa od osap om ov ob).rum_browser_pageviews_monthly * 12 ∧
      (calculate_licenses oa od osap om ov ob).rum_browser_tokens_annual =
        (calculate_licenses oa od osap om ov ob).rum_browser_pageviews_annual *
          RUM_TOKENS_PER_PAGEVIEW ∧
      (calculate_licenses oa od osap om ov ob).rum_browser_units =
        ((calculate_licenses oa od osap om ov ob).rum_browser_tokens_annual : ℚ) /
          (RUM_BROWSER_PAGEVIEWS_PER_UNIT_ANNUAL : ℚ)) ∧
    (∀ (a : Application) (la : List Application) (od : Option (List Database))
        (osap : Option (List SAPApplication)) (om : Option (List Microservice))
        (ov : Option (List ServerVisibilityOnly)) (ob : Option (List MobileApp)),
      a.is_web_app = false →
      (calculate_licenses (some (a :: la)) od osap om ov ob).rum_browser_pageviews_monthly =
        (calculate_licenses (some la) od osap om ov ob).rum_browser_pageviews_monthly) := by
  constructor
  · intro oa od osap om ov ob
    refine ⟨?_, rfl, rfl, ?_⟩
    · show rumLoopMicros (rumLoopApps 0 (oa.getD [])) (om.getD []) = _
      rw [rumLoopMicros_eq, rumLoopApps_eq]
      ring
    · have h : (calculate_licenses oa od osap om ov ob).rum_browser_units =
          if 0 < RUM_BROWSER_PAGEVIEWS_PER_UNIT_ANNUAL then
            (((calculate_licenses oa od osap om ov ob).rum_browser_tokens_annual : Int) : ℚ) /
              (RUM_BROWSER_PAGEVIEWS_PER_UNIT_ANNUAL : ℚ)
          else 0 := rfl
      rw [h, if_pos (by norm_num [RUM_BROWSER_PAGEVIEWS_PER_UNIT_ANNUAL])]
  · intro a la od osap om ov ob hw
    show rumLoopMicros (rumLoopApps 0 (a :: la)) (om.getD []) =
      rumLoopMicros (rumLoopApps 0 la) (om.getD [])
    rw [rumLoopMicros_eq, rumLoopMicros_eq, rumLoopApps_eq, rumLoopApps_eq]
    have h : rumSpecApps (a :: la) = rumSpecApps la := by
      simp [rumSpecApps, List.filter_cons, hw]
    rw [h]

/-- C9 witness: the non-web clause applied to a concrete application with
2000 sessions per month. -/
theorem lc_c9_rum_browser_witness :
    (calculate_licenses (some [⟨"A", "", "", 1, 1, false, false, some 2000, ""⟩])
        none none none none none).rum_browser_pageviews_monthly =
      (calculate_licenses (some []) none none none none none).rum_browser_pageviews_monthly :=
  lc_c9_rum_browser.2 ⟨"A", "", "", 1, 1, false, false, some 2000, ""⟩ [] none none none none
    none rfl

/-- C10: each `None` list argument of `calculate_licenses` is treated
exactly as the empty list, and the all-`None` call yields a result whose
core, instance, token and unit fields are all zero and whose details map
each of the six category keys to an empty list.  (The embedding is a total
function, so the call never fails.) -/
theorem lc_c10_none_defaults :
    (∀ od osap om ov ob, calculate_licenses none od osap om ov ob =
      calculate_licenses (some []) od osap om ov ob) ∧
    (∀ oa osap om ov ob, calculate_licenses oa none osap om ov ob =
      calculate_licenses oa (some []) osap om ov ob) ∧
    (∀ oa od om ov ob, calculate_licenses oa od none om ov ob =
      calculate_licenses oa od (some []) om ov ob) ∧
    (∀ oa od osap ov ob, calculate_licenses oa od osap none ov ob =
      calculate_licenses oa od osap (some []) ov ob) ∧
    (∀ oa od osap om ob, calculate_licenses oa od osap om none ob =
      calculate_licenses oa od osap om (some []) ob) ∧
    (∀ oa od osap om ov, calculate_licenses oa od osap om ov none =
      calculate_licenses oa od osap om ov (some [])) ∧
    (calculate_licenses none none none none none none).apm_cores = 0 ∧
    (calculate_licenses none none none none none none).database_cores = 0 ∧
    (calculate_licenses none none none none none none).sap_cores = 0 ∧
    (calculate_licenses none none none none none none).microservices_containers = 0 ∧
    (calculate_licenses none none none none none none).server_visibility_instances = 0 ∧
    (calculate_licenses none none none none none none).server_visibility_only_cores = 0 ∧
    (calculate_licenses none none none none none none).secure_app_cores = 0 ∧
    (calculate_licenses none none none none none none).rum_browser_pageviews_monthly = 0 ∧
    (calculate_licenses none none none none none none).rum_browser_pageviews_annual = 0 ∧
    (calculate_licenses none none none none none none).rum_browser_tokens_annual = 0 ∧
    (calculate_licenses none none none none none none).rum_browser_units = 0 ∧
    (calculate_licenses none none none none none none).rum_mobile_active_agents = 0 ∧
    (calculate_licenses none none none none none none).rum_mobile_tokens_monthly = 0 ∧
    (calculate_licenses none none none none none none).rum_mobile_units = 0 ∧
    (calculate_licenses none none none none none none).details =
      ⟨[], [], [], [], [], []⟩ := by
  refine ⟨fun _ _ _ _ _ => rfl, fun _ _ _ _ _ => rfl, fun _ _ _ _ _ => rfl,
    fun _ _ _ _ _ => rfl, fun _ _ _ _ _ => rfl, fun _ _ _ _ _ => rfl,
    rfl, rfl, rfl, rfl, rfl, rfl, rfl, rfl, rfl, rfl, ?_, rfl, rfl, ?_, rfl⟩
  · have h : (calculate_licenses none none none none none none).rum_browser_units =
        ((0 : Int) : ℚ) / ((10000000 : Int) : ℚ) := rfl
    rw [h]
    norm_num
  · have h : (calculate_licenses none none none none none none).rum_mobile_units =
        ((0 : Int) : ℚ) / ((5000 : Int) : ℚ) := rfl
    rw [h]
    norm_num

end AppdyLicCalc
